import Mathlib

/-
Shallow embedding of the patient-scheduler conversational controller.

Sources embedded (TypeScript/React):
  * src/unnamed/part_006 and src/unnamed/part_000 - the full classifier-chain
    chat page (insurance query, provider-name lookup, specialty search,
    symptom triage, generic intent).  Their pure helpers (buildSlots,
    detectUrgency, detectModePreference, detectPatientGroup, isInsuranceQuery,
    isSymptomQuery, normalizeLocationLabel, detectProviderSearch,
    looksLikeProviderName, isNextAvailableRequest) are byte-identical in the
    two files and are embedded once, shared.
  * src/frontend/src/app/page.tsx and src/unnamed/part_004 - the booking
    variant (holdSlot / bookAppointment lifecycle, care-options call).

Modelling conventions:
  * JavaScript strings are Lean String; String.prototype.includes,
    toLowerCase, trim and split are embedded as structural functions over
    List Char below (ASCII-faithful; the repository only manipulates ASCII
    program strings).
  * Timestamps are epoch milliseconds (Int); Date parsing/printing is
    abstracted by passing the epoch value, or a formatter function where the
    source calls toLocaleString.
  * Network collaborators are an explicit environment of response-valued
    functions (Except String models fetch failure -> caught Error); each
    controller function also returns the ordered list of collaborator calls
    it performed during the turn.
  * React setState updates become record updates on an explicit state value;
    the async/await control flow of one turn is sequentialized exactly as the
    single-turn promise chain executes.
-/

namespace PatSched

/-- Does the first list occur as a leading segment of the second?
Helper for the substring test used to model String.prototype.includes. -/
def segStarts : List Char → List Char → Bool
  | [], _ => true
  | _ :: _, [] => false
  | a :: as, b :: bs => a == b && segStarts as bs

/-- Does the first list occur contiguously anywhere inside the second? -/
def hasSeg (sub : List Char) : List Char → Bool
  | [] => segStarts sub []
  | c :: cs => segStarts sub (c :: cs) || hasSeg sub cs

/-- Model of JavaScript String.prototype.includes. -/
def includes (s pat : String) : Bool := hasSeg pat.toList s.toList

/-- Model of JavaScript String.prototype.toLowerCase (ASCII). -/
def lowerStr (s : String) : String := String.mk (s.toList.map Char.toLower)

/-- Drop whitespace from both ends of a character list. -/
def trimChars (cs : List Char) : List Char :=
  ((cs.dropWhile Char.isWhitespace).reverse.dropWhile Char.isWhitespace).reverse

/-- Model of JavaScript String.prototype.trim. -/
def jsTrim (s : String) : String := String.mk (trimChars s.toList)

/-- Accumulator-based splitter: splits on whitespace runs, dropping empty
segments.  Models text.split on a whitespace-run pattern for trimmed text
(the only way the source calls it). -/
def wordsOfAux : List Char → List Char → List String
  | acc, [] => if acc.isEmpty then [] else [String.mk acc.reverse]
  | acc, c :: cs =>
    if c.isWhitespace then
      if acc.isEmpty then wordsOfAux [] cs
      else String.mk acc.reverse :: wordsOfAux [] cs
    else wordsOfAux (c :: acc) cs

/-- Whitespace-separated tokens of a character list. -/
def wordsOf (cs : List Char) : List String := wordsOfAux [] cs

/-- JavaScript string truthiness: null/undefined and the empty string are
falsy.  Returns none exactly for falsy values. -/
def truthyStr : Option String → Option String
  | some "" => none
  | x => x

/-- Model of a JavaScript a || b || dflt chain over possibly-null strings. -/
def firstTruthy (dflt : String) : List (Option String) → String
  | [] => dflt
  | x :: xs =>
    match truthyStr x with
    | some s => s
    | none => firstTruthy dflt xs

/-! ## Domain data types (from the TypeScript type declarations) -/

/-- Message author role. -/
inductive Role
  | user
  | assistant
  | system
deriving DecidableEq

/-- Visit delivery mode ("in_person" | "virtual"). -/
inductive Mode
  | in_person
  | virtual
deriving DecidableEq

/-- The raw union string of a Mode, as JavaScript template literals print it. -/
def modeStr : Mode → String
  | .in_person => "in_person"
  | .virtual => "virtual"

/-- Provider specialty union type. -/
inductive ProviderType
  | primary_care
  | urgent_care
  | dermatology
  | orthopedics
  | cardiology
  | neurology
deriving DecidableEq

/-- Geolocation lifecycle status. -/
inductive GeoStatus
  | idle
  | locating
  | granted
  | denied
deriving DecidableEq

/-- Provider-discovery busy flag ("idle" | "finding"). -/
inductive DiscoveryMode
  | idle
  | finding
deriving DecidableEq

/-- Message kind tag (superset of the variants across the source files). -/
inductive MsgKind
  | text
  | providers
  | appointment_overview
  | insurance_filter
  | success
deriving DecidableEq

/-- Transcript message.  part_000 messages carry no options field; the field
is simply never set by the part_000 controller. -/
structure Msg where
  role : Role
  text : String
  kind : Option MsgKind := none
  options : Option (List String) := none
deriving DecidableEq

/-- ProviderSummary; next_available_start is the parsed epoch value of the
ISO timestamp. -/
structure ProviderSummary where
  provider_id : String
  name : String
  provider_type : ProviderType
  accepts_virtual : Bool
  location_name : String
  location_city : String
  location_state : String
  next_available_start : Option Int := none
  next_available_mode : Option Mode := none
deriving DecidableEq

/-- A synthesized candidate slot; isoMs is the epoch value behind the ISO
string the source stores, label the locale-formatted display string. -/
structure AppointmentSlot where
  isoMs : Int
  label : String
  mode : Mode
deriving DecidableEq

/-- Context describing the current provider-discovery result set. -/
structure DiscoveryContext where
  providerType : ProviderType
  locationLabel : String
  title : Option String := none
deriving DecidableEq

/-- Response of the fuzzy provider-name search collaborator. -/
structure ProviderSearchResponse where
  providers : List ProviderSummary
  suggestions : List ProviderSummary
deriving DecidableEq

/-- Response of the by-specialty providers collaborator. -/
structure ProvidersResponse where
  providers : List ProviderSummary
deriving DecidableEq

/-- Response of the search-intent collaborator.  A missing follow-up array is
behaviorally identical to an empty one in every use site, so it is embedded
as a plain list. -/
structure SearchIntentResponse where
  escalate : Bool
  safety_message : Option String := none
  not_medical_advice : String := ""
  visit_reason_code : Option String := none
  visit_reason_label : Option String := none
  recommended_provider_type : Option ProviderType := none
  confidence : Option String := none
  follow_up_questions : List String := []
deriving DecidableEq

/-- Result of detectProviderSearch. -/
structure SpecialtyMatch where
  providerType : ProviderType
  locationLabel : String
deriving DecidableEq

/-- Intent tag threaded into fetchProvidersByType. -/
inductive DiscoveryIntent
  | next_available
  | insurance_filter
deriving DecidableEq

/-- One collaborator HTTP call, with the request payload the claims care
about. -/
inductive CollabCall
  | providerSearch (q : String)
  | providers (t : ProviderType)
  | searchIntent (message : String)
  | careOptions
  | availability
  | holds
  | appointments (hold_id : String)
deriving DecidableEq

/-! ## Pure helpers and pattern classifiers (identical in part_000/part_006) -/

/-- formatSpecialty from part_000/part_006 (the default "Provider" arm is
unreachable over the closed enum). -/
def formatSpecialty : ProviderType → String
  | .primary_care => "Primary Care"
  | .urgent_care => "Urgent Care"
  | .dermatology => "Dermatology"
  | .orthopedics => "Orthopedics"
  | .cardiology => "Cardiology"
  | .neurology => "Neurology"

/-- buildSlots.  now is Date.now(); fmt models the toLocaleString call that
renders a slot label from its epoch value. -/
def buildSlots (fmt : Int → String) (now : Int) (provider : ProviderSummary) :
    List AppointmentSlot :=
  let base : Int :=
    match provider.next_available_start with
    | some t => t
    | none => now + 60 * 60 * 1000
  let mode : Mode :=
    match provider.next_available_mode with
    | some m => m
    | none => if provider.accepts_virtual then .virtual else .in_person
  [0, 30, 60, 90].map (fun minuteOffset =>
    { isoMs := base + minuteOffset * 60 * 1000
      label := fmt (base + minuteOffset * 60 * 1000)
      mode := mode })

/-- detectUrgency. -/
def detectUrgency (text : String) : Option String :=
  let normalized := lowerStr text
  if includes normalized "urgent" || includes normalized "asap" ||
      includes normalized "right away" || includes normalized "today" then
    some "urgent"
  else if includes normalized "non-urgent" || includes normalized "not urgent" ||
      includes normalized "routine" || includes normalized "checkup" then
    some "routine"
  else none

/-- detectModePreference. -/
def detectModePreference (text : String) : Option Mode :=
  let normalized := lowerStr text
  if includes normalized "virtual" || includes normalized "telehealth" then
    some .virtual
  else if includes normalized "in person" || includes normalized "in-person" ||
      includes normalized "clinic" then
    some .in_person
  else none

/-- detectPatientGroup. -/
def detectPatientGroup (text : String) : Option String :=
  let normalized := lowerStr text
  if includes normalized "child" || includes normalized "kid" ||
      includes normalized "son" || includes normalized "daughter" ||
      includes normalized "pediatric" then
    some "pediatric"
  else if includes normalized "adult" then some "adult"
  else none

/-- isInsuranceQuery (part_000/part_006 variant). -/
def isInsuranceQuery (text : String) : Bool :=
  let normalized := lowerStr text
  let mentionsInsurance :=
    includes normalized "insurance" || includes normalized "coverage" ||
      includes normalized "plan"
  let mentionsDoctor :=
    includes normalized "doctor" || includes normalized "provider" ||
      includes normalized "accept" || includes normalized "which doctors"
  mentionsInsurance && mentionsDoctor

/-- isSymptomQuery (identical in part_000/part_006/page.tsx). -/
def isSymptomQuery (text : String) : Bool :=
  let normalized := lowerStr text
  includes normalized "sore throat" || includes normalized "symptom checker"

/-- Word character for the regex word boundary before in/near/around. -/
def wordChar (c : Char) : Bool := c.isAlpha || c.isDigit || c == '_'

/-- Case-insensitively match a literal keyword at the head of the input,
returning the remainder on success. -/
def matchKeywordAt : List Char → List Char → Option (List Char)
  | rest, [] => some rest
  | [], _ :: _ => none
  | c :: cs, k :: ks => if c.toLower == k then matchKeywordAt cs ks else none

/-- After the keyword: require at least one whitespace character, skip the
whole whitespace run, then capture a group starting with a letter followed by
at least two more letters-or-whitespace characters (greedy), as the regex
does. -/
def captureAfterKw : List Char → Option String
  | [] => none
  | c :: cs =>
    if c.isWhitespace then
      match (c :: cs).dropWhile Char.isWhitespace with
      | [] => none
      | d :: ds =>
        if d.isAlpha then
          let tail := ds.takeWhile (fun e => e.isAlpha || e.isWhitespace)
          if tail.length ≥ 2 then some (String.mk (d :: tail)) else none
        else none
    else none

/-- Leftmost match of the location pattern: word boundary, one of the
keywords in/near/around (case-insensitive), whitespace, then the captured
place phrase.  prev is the character before the current position. -/
def findLocMatch : Option Char → List Char → Option String
  | _, [] => none
  | prev, c :: cs =>
    let boundaryOk :=
      match prev with
      | none => true
      | some p => !wordChar p
    let here :=
      if boundaryOk then
        match matchKeywordAt (c :: cs) ['i', 'n'] with
        | some rest => captureAfterKw rest
        | none =>
          match matchKeywordAt (c :: cs) ['n', 'e', 'a', 'r'] with
          | some rest => captureAfterKw rest
          | none =>
            match matchKeywordAt (c :: cs) ['a', 'r', 'o', 'u', 'n', 'd'] with
            | some rest => captureAfterKw rest
            | none => none
      else none
    match here with
    | some s => some s
    | none => findLocMatch (some c) cs

/-- normalizeLocationLabel. -/
def normalizeLocationLabel (text : String) : Option String :=
  let normalized := lowerStr text
  if includes normalized "near me" || includes normalized "nearby" ||
      includes normalized "around here" || includes normalized "close to me" then
    some "near you"
  else
    match findLocMatch none text.toList with
    | some place0 =>
      let place := jsTrim place0
      if place.length > 0 then some ("near " ++ place) else none
    | none => none

/-- The ordered specialty keyword table of detectProviderSearch. -/
def specialtiesTable : List (ProviderType × List String) :=
  [(.cardiology, ["cardiologist", "cardiology", "heart doctor", "heart specialist"]),
   (.neurology, ["neurologist", "neurology", "brain doctor", "nerve"]),
   (.primary_care, ["primary care", "pcp", "family doctor", "family medicine"]),
   (.urgent_care, ["urgent care", "walk-in", "same-day"]),
   (.dermatology, ["dermatology", "dermatologist", "skin doctor"]),
   (.orthopedics, ["orthopedic", "orthopedics", "orthopedist", "joint doctor"])]

/-- detectProviderSearch: first specialty whose keyword list matches wins. -/
def detectProviderSearch (text : String) : Option SpecialtyMatch :=
  let normalized := lowerStr text
  match specialtiesTable.find? (fun sp => sp.2.any (fun k => includes normalized k)) with
  | some sp =>
    some { providerType := sp.1
           locationLabel := (normalizeLocationLabel text).getD "near you" }
  | none => none

/-- Character class of the name-word regex tail: letters, period, apostrophe
(codepoint 39), hyphen. -/
def isNameChar (c : Char) : Bool :=
  c.isAlpha || c == '.' || c == Char.ofNat 39 || c == '-'

/-- One token of a provider-name-shaped text: a letter followed by name
characters. -/
def isNameWord (w : String) : Bool :=
  match w.toList with
  | [] => false
  | c :: rest => c.isAlpha && rest.all isNameChar

/-- looksLikeProviderName: 1-3 tokens, each name-shaped; a 3-token form only
with a leading case-insensitive "dr". -/
def looksLikeProviderName (text : String) : Bool :=
  let normalized := (jsTrim text).toList
  if normalized.length < 3 || normalized.length > 120 then false
  else
    match wordsOf normalized with
    | [w] => isNameWord w
    | [w1, w2] => isNameWord w1 && isNameWord w2
    | [w0, w1, w2] => lowerStr w0 == "dr" && isNameWord w1 && isNameWord w2
    | _ => false

/-- isNextAvailableRequest. -/
def isNextAvailableRequest (text : String) : Bool :=
  let normalized := lowerStr text
  includes normalized "next available" || includes normalized "earliest available" ||
    includes normalized "soonest" || includes normalized "first available"

/-! ## Chat-page session state (part_000/part_006) -/

/-- The updatable fields of the chat page.  part_006 has no insuranceFilter
field; it is carried here inertly so both variants share one state type (the
part_006 controller never reads or writes it). -/
structure ChatState where
  messages : List Msg
  input : String
  loading : Bool
  providerMatches : Option (List ProviderSummary)
  providerDiscoveryMode : DiscoveryMode
  providerDiscoveryContext : Option DiscoveryContext
  searchSuggestions : Option ProviderSearchResponse
  lastSuggestionQuery : String
  insuranceFlowActive : Bool
  insuranceFilter : String
  selectedInsurance : Option String
  selectedAppointment : Option (ProviderSummary × AppointmentSlot)
  symptomFlowActive : Bool
  symptomStep : Nat
  symptomResponses : List (String × String)
  geoStatus : GeoStatus
  userLocation : Option String
deriving DecidableEq

/-- The fixed symptom triage question list (id, question, options). -/
def symptomQuestions : List (String × String × List String) :=
  [("duration", "How long has the sore throat lasted?",
      ["Less than a day", "1-3 days", "More than 3 days"]),
   ("fever", "Is there a fever present?",
      ["No fever", "Mild fever", "High fever"]),
   ("breathing", "Any trouble breathing or swallowing?",
      ["No", "Mild discomfort", "Yes, significant"])]

/-- JavaScript object-spread key update: overwrite in place, else append. -/
def setKey (k v : String) : List (String × String) → List (String × String)
  | [] => [(k, v)]
  | (k0, v0) :: rest =>
    if k0 = k then (k0, v) :: rest else (k0, v0) :: setKey k v rest

/-- answerSymptomQuestion (identical in page.tsx, part_000 and part_006):
looks up the current question, returns unchanged when the index is past the
list, otherwise records the response and advances; on the final answer also
emits the closing message referencing the resolved location. -/
def answerSymptomQuestion (st : ChatState) (opt : String) : ChatState :=
  match symptomQuestions[st.symptomStep]? with
  | none => st
  | some q =>
    let responses := setKey q.1 opt st.symptomResponses
    let nextStep := st.symptomStep + 1
    if nextStep ≥ symptomQuestions.length then
      { st with
        symptomResponses := responses
        symptomStep := nextStep
        messages := st.messages ++
          [{ role := .assistant
             text := "Thanks for the details. I’ll check urgent care times " ++
               (match truthyStr st.userLocation with
                | some loc => "near " ++ loc
                | none => "near you") ++ "." }] }
    else { st with symptomResponses := responses, symptomStep := nextStep }

/-! ## Collaborator environment and shared discovery coordinators -/

/-- One turn worth of collaborator behavior for the chat page: each function
maps the request to the response the network would deliver, Except.error
modelling a failed fetch (caught and rendered via getErrorMessage). -/
structure Collab where
  providerSearch : String → Except String ProviderSearchResponse
  providersByType : ProviderType → Except String ProvidersResponse
  searchIntent : String → Except String SearchIntentResponse

/-- fetchProvidersByName (identical in part_000/part_006).  Returns the new
state, the handled flag the source returns, and the collaborator calls made.
The limit/mode query parameters of the source carry no information the
embedded responses depend on. -/
def fetchProvidersByName (env : Collab) (st : ChatState) (query : String) :
    ChatState × Bool × List CollabCall :=
  let st := { st with providerDiscoveryMode := .finding, providerMatches := none }
  match env.providerSearch query with
  | .ok resp =>
    let matched := if resp.providers ≠ [] then resp.providers else resp.suggestions
    if matched = [] then
      ({ st with
          messages := st.messages ++
            [{ role := .assistant
               text := "I couldn\x27t find any providers matching \"" ++ query ++
                 "\". Try another name or add more details." }]
          loading := false
          providerDiscoveryMode := .idle },
       true, [.providerSearch query])
    else
      let title := if resp.providers ≠ [] then "Matching providers" else "Suggested providers"
      let label :=
        if resp.providers ≠ [] then "for \"" ++ query ++ "\""
        else "for names similar to \"" ++ query ++ "\""
      let pt :=
        match matched.head? with
        | some p => p.provider_type
        | none => ProviderType.primary_care
      let intro :=
        if resp.providers ≠ [] then "Here are providers matching \"" ++ query ++ "\"."
        else "No exact match for \"" ++ query ++ "\" — showing similar provider names."
      ({ st with
          providerMatches := some matched
          providerDiscoveryContext := some { providerType := pt, locationLabel := label, title := some title }
          messages := st.messages ++
            [{ role := .assistant, text := intro, kind := some .text },
             { role := .assistant, text := "", kind := some .providers }]
          loading := false
          providerDiscoveryMode := .idle },
       true, [.providerSearch query])
  | .error e =>
    ({ st with
        messages := st.messages ++ [{ role := .assistant, text := "Error: " ++ e }]
        loading := false
        providerDiscoveryMode := .idle },
     false, [.providerSearch query])

/-- fetchProvidersByType (identical in part_000/part_006). -/
def fetchProvidersByType (env : Collab) (st : ChatState) (providerType : ProviderType)
    (query : Option String) (locationLabel : String) (intent : Option DiscoveryIntent) :
    ChatState × List CollabCall :=
  let st := { st with
    providerDiscoveryMode := .finding
    providerMatches := none
    providerDiscoveryContext := some { providerType := providerType, locationLabel := locationLabel } }
  match env.providersByType providerType with
  | .ok resp =>
    let specialtyLabel := lowerStr (formatSpecialty providerType)
    let intro :=
      match intent with
      | some .insurance_filter =>
        "Here are " ++ specialtyLabel ++ " options " ++ locationLabel ++
          " that accept " ++ query.getD "your insurance" ++ "."
      | some .next_available =>
        "Here are the next available " ++ specialtyLabel ++ " appointments " ++
          locationLabel ++
          (match truthyStr query with
           | some q => " for \"" ++ q ++ "\"."
           | none => ".")
      | none =>
        "Sure — here are " ++ specialtyLabel ++ " options " ++ locationLabel ++
          (match truthyStr query with
           | some q => " based on \"" ++ q ++ "\"."
           | none => ".")
    ({ st with
        providerMatches := some resp.providers
        messages := st.messages ++
          [{ role := .assistant, text := intro, kind := some .text },
           { role := .assistant, text := "", kind := some .providers }]
        loading := false
        providerDiscoveryMode := .idle },
     [.providers providerType])
  | .error e =>
    ({ st with
        messages := st.messages ++ [{ role := .assistant, text := "Error: " ++ e }]
        loading := false
        providerDiscoveryMode := .idle },
     [.providers providerType])

/-! ## part_006 flow controller -/

namespace P6

/-- resetFlows of part_006 (does not touch selectedInsurance, which the
insurance branch of handleSend resets instead). -/
def resetFlows (st : ChatState) : ChatState :=
  { st with
    insuranceFlowActive := false
    symptomFlowActive := false
    symptomStep := 0
    symptomResponses := []
    geoStatus := .idle
    userLocation := none
    providerMatches := none
    providerDiscoveryMode := .idle
    providerDiscoveryContext := none
    searchSuggestions := none
    lastSuggestionQuery := "" }

/-- The tail of handleSend after the insurance and provider-name branches:
specialty/next-available search, symptom query, generic intent. -/
def handleSendRest (env : Collab) (st : ChatState) (text : String) :
    ChatState × List CollabCall :=
  let providerIntent := detectProviderSearch text
  let wantsNextAvailable := isNextAvailableRequest text
  let inferredLocation :=
    firstTruthy "near you"
      [providerIntent.map (fun pi => pi.locationLabel), normalizeLocationLabel text]
  if providerIntent.isSome || wantsNextAvailable then
    let providerType :=
      match providerIntent with
      | some pi => pi.providerType
      | none => ProviderType.primary_care
    fetchProvidersByType env st providerType (some text) inferredLocation
      (if wantsNextAvailable then some .next_available else none)
  else if isSymptomQuery text then
    ({ st with
        loading := false
        symptomFlowActive := true
        messages := st.messages ++
          [{ role := .assistant
             text := "Let’s run a quick symptom check to match an urgent care slot and geolocate you automatically." }] },
     [])
  else
    let urgency := detectUrgency text
    let modePreference := detectModePreference text
    let patientGroup := detectPatientGroup text
    match env.searchIntent text with
    | .error e =>
      ({ st with
          messages := st.messages ++ [{ role := .assistant, text := "Error: " ++ e }]
          loading := false },
       [.searchIntent text])
    | .ok r =>
      if r.escalate then
        ({ st with
            messages := st.messages ++
              [{ role := .assistant
                 text := r.safety_message.getD
                   "For safety, please call 911 or visit the nearest emergency room." }]
            loading := false },
         [.searchIntent text])
      else
        let reasonLabel := r.visit_reason_label.getD "your request"
        let providerLabel :=
          match r.recommended_provider_type with
          | some t => formatSpecialty t
          | none => "care"
        let affirmations :=
          ["I can help with " ++ reasonLabel ++ "."] ++
            (match r.recommended_provider_type with
             | some _ => ["Most patients start with " ++ lowerStr providerLabel ++ " for this."]
             | none => [])
        let primarySignals :=
          (if patientGroup = some "pediatric" then
            ["I\x27ll look for pediatric-friendly options."] else []) ++
          (match modePreference with
           | some .virtual => ["I\x27ll focus on virtual visits."]
           | some .in_person => ["I\x27ll focus on in-person visits."]
           | none => []) ++
          (match urgency with
           | some u =>
             if u = "urgent" then ["Sounds urgent—I\x27ll prioritize today or soon."]
             else ["Sounds routine—I\x27ll find the next available times."]
           | none => [])
        let schedulingPrompt :=
          if wantsNextAvailable then
            "I\x27ll pull the earliest available appointments " ++ inferredLocation ++ "."
          else
            "I recommend showing the soonest available appointments " ++ inferredLocation ++ "."
        let followUps : List (String × List String) :=
          (if modePreference = none then
            [("Choose a visit format so I can tailor the schedule.", ["In-person", "Virtual"])]
           else []) ++
          (if urgency = none then
            [("Pick how soon you’d like care.", ["Today or soon", "Routine"])]
           else []) ++
          (if patientGroup = none then
            [("Select who the visit is for.", ["Adult", "Child"])]
           else []) ++
          r.follow_up_questions.map (fun q => (q, ["Share details", "Skip for now"]))
        let msgs1 := st.messages ++
          [{ role := .assistant
             text := String.intercalate " " (affirmations ++ primarySignals ++ [schedulingPrompt]) }]
        let msgs2 :=
          match followUps with
          | [] => msgs1
          | fu :: _ => msgs1 ++ [{ role := .assistant, text := fu.1, options := some fu.2 }]
        ({ st with messages := msgs2, loading := false }, [.searchIntent text])

/-- handleSend of part_006.  customText none means the composer input is
submitted (and cleared); some t is a quick prompt. -/
def handleSend (env : Collab) (st0 : ChatState) (customText : Option String) :
    ChatState × List CollabCall :=
  let raw := customText.getD st0.input
  if jsTrim raw = "" then (st0, [])
  else
    let text := jsTrim raw
    let st1 :=
      match customText with
      | none => { st0 with input := "" }
      | some _ => st0
    let st2 := resetFlows st1
    let st3 := { st2 with
      messages := st2.messages ++ [{ role := .user, text := text }]
      loading := true }
    if isInsuranceQuery text then
      let kept := st3.messages.filter (fun m => m.kind ≠ some .insurance_filter)
      ({ st3 with
          loading := false
          selectedInsurance := none
          insuranceFlowActive := true
          messages := kept ++
            [{ role := .assistant
               text := "I can help find doctors who accept your insurance. Pick your plan from the list below to continue." },
             { role := .assistant, text := "", kind := some .insurance_filter }] },
       [])
    else if looksLikeProviderName text then
      match fetchProvidersByName env st3 text with
      | (st4, true, calls) => (st4, calls)
      | (st4, false, calls) =>
        let (st5, calls2) := handleSendRest env st4 text
        (st5, calls ++ calls2)
    else handleSendRest env st3 text

end P6

/-! ## part_000 flow controller -/

namespace P0

/-- resetFlows of part_000 (also clears insuranceFilter and
selectedInsurance). -/
def resetFlows (st : ChatState) : ChatState :=
  { st with
    insuranceFlowActive := false
    insuranceFilter := ""
    selectedInsurance := none
    symptomFlowActive := false
    symptomStep := 0
    symptomResponses := []
    geoStatus := .idle
    userLocation := none
    providerMatches := none
    providerDiscoveryMode := .idle
    providerDiscoveryContext := none
    searchSuggestions := none
    lastSuggestionQuery := "" }

/-- The tail of the part_000 handleSend (specialty search, symptom query,
generic intent).  Differs from part_006 only in the generic-branch wording
and in appending every follow-up question as its own plain message. -/
def handleSendRest (env : Collab) (st : ChatState) (text : String) :
    ChatState × List CollabCall :=
  let providerIntent := detectProviderSearch text
  let wantsNextAvailable := isNextAvailableRequest text
  let inferredLocation :=
    firstTruthy "near you"
      [providerIntent.map (fun pi => pi.locationLabel), normalizeLocationLabel text]
  if providerIntent.isSome || wantsNextAvailable then
    let providerType :=
      match providerIntent with
      | some pi => pi.providerType
      | none => ProviderType.primary_care
    fetchProvidersByType env st providerType (some text) inferredLocation
      (if wantsNextAvailable then some .next_available else none)
  else if isSymptomQuery text then
    ({ st with
        loading := false
        symptomFlowActive := true
        messages := st.messages ++
          [{ role := .assistant
             text := "Let’s run a quick symptom check to match an urgent care slot and geolocate you automatically." }] },
     [])
  else
    let urgency := detectUrgency text
    let modePreference := detectModePreference text
    let patientGroup := detectPatientGroup text
    match env.searchIntent text with
    | .error e =>
      ({ st with
          messages := st.messages ++ [{ role := .assistant, text := "Error: " ++ e }]
          loading := false },
       [.searchIntent text])
    | .ok r =>
      if r.escalate then
        ({ st with
            messages := st.messages ++
              [{ role := .assistant
                 text := r.safety_message.getD
                   "For safety, please call 911 or visit the nearest emergency room." }]
            loading := false },
         [.searchIntent text])
      else
        let reasonLabel := r.visit_reason_label.getD "your request"
        let providerLabel :=
          match r.recommended_provider_type with
          | some t => formatSpecialty t
          | none => "care"
        let affirmations :=
          ["I can help with " ++ reasonLabel ++ "."] ++
            (match r.recommended_provider_type with
             | some _ => ["Most patients start with " ++ lowerStr providerLabel ++ " for this."]
             | none => [])
        let primarySignals :=
          (if patientGroup = some "pediatric" then
            ["I\x27ll look for pediatric-friendly options."] else []) ++
          (match modePreference with
           | some .virtual => ["I\x27ll focus on virtual visits."]
           | some .in_person => ["I\x27ll focus on in-person visits."]
           | none => []) ++
          (match urgency with
           | some u =>
             if u = "urgent" then ["Sounds urgent—I\x27ll prioritize today or soon."]
             else ["Sounds routine—I\x27ll find the next available times."]
           | none => [])
        let schedulingPrompt :=
          if wantsNextAvailable then
            "I\x27ll pull the earliest available appointments " ++ inferredLocation ++ "."
          else
            "Want me to show the soonest available appointments " ++ inferredLocation ++ "?"
        let followUps : List String :=
          (if modePreference = none then ["Do you prefer in-person or virtual?"] else []) ++
          (if urgency = none then ["Is this urgent (today/soon) or routine?"] else []) ++
          (if patientGroup = none then ["Is this for an adult or child?"] else []) ++
          r.follow_up_questions
        let msgs1 := st.messages ++
          [{ role := .assistant
             text := String.intercalate " " (affirmations ++ primarySignals ++ [schedulingPrompt]) }]
        let msgs2 :=
          if followUps.length > 0 then
            msgs1 ++ followUps.map (fun q => { role := .assistant, text := q })
          else msgs1
        ({ st with messages := msgs2, loading := false }, [.searchIntent text])

/-- handleSend of part_000. -/
def handleSend (env : Collab) (st0 : ChatState) (customText : Option String) :
    ChatState × List CollabCall :=
  let raw := customText.getD st0.input
  if jsTrim raw = "" then (st0, [])
  else
    let text := jsTrim raw
    let st1 :=
      match customText with
      | none => { st0 with input := "" }
      | some _ => st0
    let st2 := resetFlows st1
    let st3 := { st2 with
      messages := st2.messages ++ [{ role := .user, text := text }]
      loading := true }
    if isInsuranceQuery text then
      ({ st3 with
          loading := false
          insuranceFlowActive := true
          messages := st3.messages ++
            [{ role := .assistant
               text := "I can help find doctors who accept your insurance. Choose a popular plan below or start typing your carrier." }] },
       [])
    else if looksLikeProviderName text then
      match fetchProvidersByName env st3 text with
      | (st4, true, calls) => (st4, calls)
      | (st4, false, calls) =>
        let (st5, calls2) := handleSendRest env st4 text
        (st5, calls ++ calls2)
    else handleSendRest env st3 text

end P0

/-! ## page.tsx / part_004 booking variant -/

namespace Pg

/-- Messages in page.tsx carry only role and text. -/
structure PgMsg where
  role : Role
  text : String
deriving DecidableEq

/-- Care option entry returned by the care-options collaborator. -/
structure CareOption where
  provider_type : ProviderType
  label : String
  suggested : Bool
deriving DecidableEq

/-- A live availability slot.  start/endTime keep the ISO strings the source
passes around verbatim (endTime embeds the reserved word end). -/
structure AvailabilitySlot where
  provider_id : String
  provider_name : String
  location_id : String
  location_name : String
  start : String
  endTime : String
  mode : Mode
deriving DecidableEq

/-- Response of the hold-creation collaborator. -/
structure CreateHoldResponse where
  hold_id : String
  expires_at : String
deriving DecidableEq

/-- Response of the booking collaborator (status is the literal union string
"confirmed" in the source type). -/
structure BookAppointmentResponse where
  appointment_id : String
  provider_name : String
  location_name : String
  start : String
  endTime : String
  mode : Mode
  status : String
deriving DecidableEq

/-- The updatable fields of the page.tsx component. -/
structure PgState where
  messages : List PgMsg
  input : String
  loading : Bool
  intent : Option SearchIntentResponse
  careOptions : Option (List CareOption)
  selectedCareType : Option ProviderType
  mode : Mode
  availability : Option (List AvailabilitySlot)
  selectedSlot : Option AvailabilitySlot
  selectedAppointmentPreview : Option AvailabilitySlot
  holdId : Option String
  holdExpiresAt : Option String
  patientFirstName : String
  patientLastName : String
  patientDob : String
  patientPhone : String
  patientEmail : String
  patientNotes : String
  bookingStatus : Option String
  providerMatches : Option (List ProviderSummary)
  providerDiscoveryMode : DiscoveryMode
  insuranceFlowActive : Bool
  insuranceFilter : String
  selectedInsurance : Option String
  symptomFlowActive : Bool
  symptomStep : Nat
  symptomResponses : List (String × String)
  geoStatus : GeoStatus
  userLocation : Option String
deriving DecidableEq

/-- Collaborators of page.tsx.  fmtDateTime models the
new Date(s).toLocaleString() rendering used in status lines. -/
structure PgCollab where
  searchIntent : String → Except String SearchIntentResponse
  careOptions : String → ProviderType → Except String (List CareOption)
  providers : Except String (List ProviderSummary)
  availability : Except String (List AvailabilitySlot)
  holds : Except String CreateHoldResponse
  appointments : Except String BookAppointmentResponse
  fmtDateTime : String → String

/-- isPrimaryCareQuery of page.tsx. -/
def isPrimaryCareQuery (text : String) : Bool :=
  let normalized := lowerStr text
  includes normalized "primary care" || includes normalized "pcp"

/-- isInsuranceQuery of page.tsx: (pcp or primary care) and insurance. -/
def pgIsInsuranceQuery (text : String) : Bool :=
  let normalized := lowerStr text
  (includes normalized "pcp" || includes normalized "primary care") &&
    includes normalized "insurance"

/-- resetFlows of page.tsx. -/
def resetFlows (st : PgState) : PgState :=
  { st with
    insuranceFlowActive := false
    insuranceFilter := ""
    selectedInsurance := none
    symptomFlowActive := false
    symptomStep := 0
    symptomResponses := []
    geoStatus := .idle
    userLocation := none
    providerMatches := none
    providerDiscoveryMode := .idle }

/-- fetchPrimaryCareProviders of page.tsx. -/
def fetchPrimaryCareProviders (env : PgCollab) (st : PgState) :
    PgState × List CollabCall :=
  let st := { st with providerDiscoveryMode := .finding, providerMatches := none }
  match env.providers with
  | .ok ps =>
    ({ st with
        providerMatches := some ps
        selectedCareType := some .primary_care
        intent := some
          { escalate := false
            not_medical_advice := "This tool provides scheduling assistance only and is not medical advice."
            visit_reason_code := some "PRIMARY_CARE_VISIT"
            visit_reason_label := some "a primary care visit"
            recommended_provider_type := some .primary_care
            confidence := some "high" }
        careOptions := some
          [{ provider_type := .primary_care, label := "Primary care (AI matched)", suggested := true },
           { provider_type := .urgent_care, label := "Urgent care (just in case)", suggested := false }]
        messages := st.messages ++
          [{ role := .assistant
             text := "Here are primary care providers surfaced from our directory with live availability." }]
        loading := false
        providerDiscoveryMode := .idle },
     [.providers .primary_care])
  | .error e =>
    ({ st with
        messages := st.messages ++ [{ role := .assistant, text := "Error: " ++ e }]
        loading := false
        providerDiscoveryMode := .idle },
     [.providers .primary_care])

/-- Rendering of an optional string inside a JavaScript template literal
(undefined prints as "undefined"). -/
def tmpl (o : Option String) : String := o.getD "undefined"

/-- handleSend of page.tsx. -/
def handleSend (env : PgCollab) (st0 : PgState) (customText : Option String) :
    PgState × List CollabCall :=
  let raw := customText.getD st0.input
  if jsTrim raw = "" then (st0, [])
  else
    let text := jsTrim raw
    let st1 :=
      match customText with
      | none => { st0 with input := "" }
      | some _ => st0
    let st2 := { st1 with
      availability := none
      selectedSlot := none
      holdId := none
      holdExpiresAt := none
      careOptions := none
      selectedCareType := none
      intent := none
      bookingStatus := none }
    let st3 := resetFlows st2
    let st4 := { st3 with
      messages := st3.messages ++ [{ role := .user, text := text }]
      loading := true }
    if pgIsInsuranceQuery text then
      ({ st4 with
          loading := false
          insuranceFlowActive := true
          messages := st4.messages ++
            [{ role := .assistant
               text := "Choose from a list of popular insurance plans and I’ll find PCPs who accept them." }] },
       [])
    else if isPrimaryCareQuery text then
      fetchPrimaryCareProviders env st4
    else if isSymptomQuery text then
      ({ st4 with
          loading := false
          symptomFlowActive := true
          intent := some
            { escalate := false
              not_medical_advice := "This is not medical advice."
              visit_reason_code := some "SORE_THROAT"
              visit_reason_label := some "sore throat"
              recommended_provider_type := some .urgent_care
              confidence := some "high" }
          careOptions := some
            [{ provider_type := .urgent_care, label := "Urgent care (nearby clinics)", suggested := true },
             { provider_type := .primary_care, label := "Primary care follow-up", suggested := false }]
          selectedCareType := some .urgent_care
          messages := st4.messages ++
            [{ role := .assistant
               text := "Let’s run a quick symptom check to match an urgent care slot and geolocate you automatically." }] },
       [])
    else
      match env.searchIntent text with
      | .error e =>
        ({ st4 with
            messages := st4.messages ++ [{ role := .assistant, text := "Error: " ++ e }]
            loading := false },
         [.searchIntent text])
      | .ok r =>
        let st5 := { st4 with intent := some r }
        if r.escalate then
          ({ st5 with
              messages := st5.messages ++
                [{ role := .assistant
                   text := r.safety_message.getD "This may require immediate care." }]
              loading := false },
           [.searchIntent text])
        else
          let st6 : PgState := { st5 with
            messages := st5.messages ++
              [{ role := .assistant
                 text := "I can help schedule care for " ++ tmpl r.visit_reason_label ++ "." }] }
          match env.careOptions (r.visit_reason_code.getD "GENERIC")
              (r.recommended_provider_type.getD .primary_care) with
          | .ok opts =>
            let suggested :=
              match opts.find? (fun o => o.suggested) with
              | some o => some o.provider_type
              | none =>
                match opts.head? with
                | some o => some o.provider_type
                | none => none
            ({ st6 with careOptions := some opts, selectedCareType := suggested, loading := false },
             [.searchIntent text, .careOptions])
          | .error e =>
            ({ st6 with
                messages := st6.messages ++ [({ role := .assistant, text := "Error: " ++ e } : PgMsg)]
                loading := false },
             [.searchIntent text, .careOptions])

/-- bookAppointment of page.tsx / part_004: guarded on a non-null hold and
selected slot; on success sets the booking status line (with the locale-
formatted time) and appends the confirmation transcript entry; on failure
sets the failure status.  Neither branch writes holdId or selectedSlot. -/
def bookAppointment (env : PgCollab) (st : PgState) : PgState × List CollabCall :=
  match st.holdId, st.selectedSlot with
  | some h, some _ =>
    let st1 := { st with loading := true, bookingStatus := none }
    match env.appointments with
    | .ok resp =>
      ({ st1 with
          bookingStatus := some
            ("Booked with " ++ resp.provider_name ++ " on " ++
              env.fmtDateTime resp.start ++ ".")
          messages := st1.messages ++
            [{ role := .assistant
               text := "Booked " ++ resp.status ++ " with " ++ resp.provider_name ++
                 " (" ++ modeStr resp.mode ++ "). Confirmation: " ++
                 resp.appointment_id ++ "." }]
          loading := false },
       [.appointments h])
    | .error e =>
      ({ st1 with bookingStatus := some ("Booking failed: " ++ e), loading := false },
       [.appointments h])
  | _, _ => (st, [])

end Pg

/-! ## Helper lemmas -/

/-- segStarts decides the prefix relation. -/
theorem segStarts_iff (a b : List Char) : segStarts a b = true ↔ a <+: b := by
  induction a generalizing b with
  | nil => simp [segStarts]
  | cons x xs ih =>
    cases b with
    | nil => simp [segStarts]
    | cons y ys =>
      simp only [segStarts, Bool.and_eq_true, beq_iff_eq, List.cons_prefix_cons]
      exact and_congr Iff.rfl (ih ys)

/-- hasSeg decides the infix relation. -/
theorem hasSeg_iff (sub hay : List Char) : hasSeg sub hay = true ↔ sub <:+: hay := by
  induction hay with
  | nil =>
    simp only [hasSeg, segStarts_iff, List.prefix_nil, List.infix_nil]
  | cons c cs ih =>
    simp only [hasSeg, Bool.or_eq_true, segStarts_iff, ih, List.infix_cons_iff]

/-- A string containing "which doctors" also contains "doctor". -/
theorem includes_doctor_of_which (s : String) (h : includes s "which doctors" = true) :
    includes s "doctor" = true := by
  rw [includes, hasSeg_iff] at h ⊢
  exact List.IsInfix.trans ((hasSeg_iff _ _).mp (by decide)) h

/-! ## Concrete fixtures used by witnesses and counterexamples -/

/-- Initial chat-page state (all useState initial values). -/
def initChatState : ChatState :=
  { messages := []
    input := ""
    loading := false
    providerMatches := none
    providerDiscoveryMode := .idle
    providerDiscoveryContext := none
    searchSuggestions := none
    lastSuggestionQuery := ""
    insuranceFlowActive := false
    insuranceFilter := ""
    selectedInsurance := none
    selectedAppointment := none
    symptomFlowActive := false
    symptomStep := 0
    symptomResponses := []
    geoStatus := .idle
    userLocation := none }

/-- A collaborator environment in which every network call fails. -/
def envDown : Collab :=
  { providerSearch := fun _ => .error "down"
    providersByType := fun _ => .error "down"
    searchIntent := fun _ => .error "down" }

/-! ## Claim C6 -/

/-- C6: for every provider, buildSlots returns exactly the four candidate
slots at 0/30/60/90-minute offsets from the next-available timestamp (or one
hour after now when it is absent), every slot carrying the next-available
mode, defaulting to virtual when the provider accepts virtual visits and
in-person otherwise. -/
theorem claim6_buildSlots_four_offsets (fmt : Int → String) (now : Int)
    (p : ProviderSummary) :
    buildSlots fmt now p =
      (let base := p.next_available_start.getD (now + 3600000)
       let m := p.next_available_mode.getD
         (if p.accepts_virtual then Mode.virtual else Mode.in_person)
       [{ isoMs := base, label := fmt base, mode := m },
        { isoMs := base + 1800000, label := fmt (base + 1800000), mode := m },
        { isoMs := base + 3600000, label := fmt (base + 3600000), mode := m },
        { isoMs := base + 5400000, label := fmt (base + 5400000), mode := m }]) := by
  cases hs : p.next_available_start <;> cases hm : p.next_available_mode <;>
    simp [buildSlots, hs, hm]

/-! ## Claim C7 -/

/-- C7: isInsuranceQuery is true exactly when the lowercased text contains an
insurance/coverage/plan term and a doctor/provider/accept term; the two
concrete examples of the specification hold. -/
theorem claim7_isInsuranceQuery_iff :
    (∀ text : String,
      isInsuranceQuery text = true ↔
        ((includes (lowerStr text) "insurance" || includes (lowerStr text) "coverage" ||
            includes (lowerStr text) "plan") = true ∧
         (includes (lowerStr text) "doctor" || includes (lowerStr text) "provider" ||
            includes (lowerStr text) "accept") = true)) ∧
    isInsuranceQuery "Which doctors accept my insurance?" = true ∧
    isInsuranceQuery "insurance" = false := by
  refine ⟨fun text => ?_, by decide, by decide⟩
  unfold isInsuranceQuery
  simp only [Bool.and_eq_true, Bool.or_eq_true]
  constructor
  · rintro ⟨hi, hd⟩
    refine ⟨hi, ?_⟩
    rcases hd with ((h1 | h2) | h3) | h4
    · exact Or.inl (Or.inl h1)
    · exact Or.inl (Or.inr h2)
    · exact Or.inr h3
    · exact Or.inl (Or.inl (includes_doctor_of_which _ h4))
  · rintro ⟨hi, hd⟩
    refine ⟨hi, ?_⟩
    rcases hd with (h1 | h2) | h3
    · exact Or.inl (Or.inl (Or.inl h1))
    · exact Or.inl (Or.inl (Or.inr h2))
    · exact Or.inl (Or.inr h3)

/-- Witness for C7: the characterization applied at a concrete input. -/
theorem claim7_witness : isInsuranceQuery "doctors accept my plan" = true :=
  (claim7_isInsuranceQuery_iff.1 "doctors accept my plan").mpr (by decide)

/-! ## Claim C8 -/

/-- Char.toLower only moves characters inside the basic latin upper range. -/
theorem upper_range_of_toLower_ne {c : Char} (h : Char.toLower c ≠ c) :
    c.toNat ≥ 65 ∧ c.toNat ≤ 90 := by
  by_cases hcond : c.toNat ≥ 65 ∧ c.toNat ≤ 90
  · exact hcond
  · exfalso
    apply h
    show (if c.toNat ≥ 65 ∧ c.toNat ≤ 90 then Char.ofNat (c.toNat + 32) else c) = c
    rw [if_neg hcond]

/-- A character whose lowercase image is a letter is itself a letter. -/
theorem isAlpha_of_toLower_isAlpha {c : Char} (h : (Char.toLower c).isAlpha = true) :
    c.isAlpha = true := by
  by_cases hc : Char.toLower c = c
  · rw [hc] at h; exact h
  · have hr := upper_range_of_toLower_ne hc
    have hu : c.isUpper = true := by
      unfold Char.isUpper
      rw [Bool.and_eq_true, decide_eq_true_eq, decide_eq_true_eq]
      refine ⟨?_, ?_⟩
      · show (65 : UInt32) ≤ c.val
        rw [UInt32.le_def, BitVec.le_def]
        exact hr.1
      · show c.val ≤ (90 : UInt32)
        rw [UInt32.le_def, BitVec.le_def]
        exact hr.2
    unfold Char.isAlpha
    rw [hu, Bool.true_or]

/-- A token whose lowercase form is "dr" matches the name-word pattern. -/
theorem isNameWord_of_lowerStr_dr {w : String} (h : lowerStr w = "dr") :
    isNameWord w = true := by
  have hl : w.toList.map Char.toLower = ['d', 'r'] := by
    have h2 := congrArg String.toList h
    simpa [lowerStr] using h2
  have hlen : w.toList.length = 2 := by
    have h3 := congrArg List.length hl
    simpa using h3
  obtain ⟨c1, c2, hw⟩ : ∃ c1 c2, w.toList = [c1, c2] := by
    cases h0 : w.toList with
    | nil => rw [h0] at hlen; simp at hlen
    | cons a t =>
      cases t with
      | nil => rw [h0] at hlen; simp at hlen
      | cons b t2 =>
        cases t2 with
        | nil => exact ⟨a, b, rfl⟩
        | cons d t3 => rw [h0] at hlen; simp at hlen
  rw [hw] at hl
  simp only [List.map_cons, List.map_nil] at hl
  have h1 : Char.toLower c1 = 'd' := by injection hl
  have h2 : Char.toLower c2 = 'r' := by
    have hrest := hl
    injection hrest with ha hb
    injection hb
  have ha1 : c1.isAlpha = true := by
    apply isAlpha_of_toLower_isAlpha
    rw [h1]; decide
  have ha2 : c2.isAlpha = true := by
    apply isAlpha_of_toLower_isAlpha
    rw [h2]; decide
  unfold isNameWord
  rw [hw]
  simp [isNameChar, ha1, ha2]

/-- C8: looksLikeProviderName accepts only 1-3 whitespace-separated tokens,
each matching the name-word pattern, and a 3-token form only when the first
token is the title "Dr" (case-insensitively); with the two concrete examples
of the specification. -/
theorem claim8_looksLikeProviderName_shape :
    (∀ text : String, looksLikeProviderName text = true →
      ((wordsOf (jsTrim text).toList).length ≥ 1 ∧
        (wordsOf (jsTrim text).toList).length ≤ 3) ∧
      (∀ w ∈ wordsOf (jsTrim text).toList, isNameWord w = true) ∧
      ((wordsOf (jsTrim text).toList).length = 3 →
        ∃ w0, (wordsOf (jsTrim text).toList).head? = some w0 ∧ lowerStr w0 = "dr")) ∧
    looksLikeProviderName "Dr Jane Smith" = true ∧
    looksLikeProviderName "Jane Smith Rodriguez Lee" = false := by
  refine ⟨fun text h => ?_, by decide, by decide⟩
  simp only [looksLikeProviderName] at h
  split at h
  · exact absurd h (by simp)
  · generalize hws : wordsOf (jsTrim text).toList = ws at h ⊢
    rcases ws with _ | ⟨w1, _ | ⟨w2, _ | ⟨w3, _ | ⟨w4, rest⟩⟩⟩⟩
    · exact absurd h (by simp)
    · refine ⟨⟨by simp, by simp⟩, ?_, by simp⟩
      intro w hw
      simp only [List.mem_singleton] at hw
      subst hw
      exact h
    · rw [Bool.and_eq_true] at h
      refine ⟨⟨by simp, by simp⟩, ?_, by simp⟩
      intro w hw
      rcases List.mem_pair.mp hw with rfl | rfl
      · exact h.1
      · exact h.2
    · rw [Bool.and_eq_true, Bool.and_eq_true, beq_iff_eq] at h
      obtain ⟨⟨hdr, h1⟩, h2⟩ := h
      refine ⟨⟨by simp, by simp⟩, ?_, ?_⟩
      · intro w hw
        simp only [List.mem_cons, List.not_mem_nil, or_false] at hw
        rcases hw with rfl | rfl | rfl
        · exact isNameWord_of_lowerStr_dr hdr
        · exact h1
        · exact h2
      · intro _
        exact ⟨w1, rfl, hdr⟩
    · exact absurd h (by simp)

/-- Witness for C8 at the concrete input "Dr Jane Smith". -/
theorem claim8_witness :
    ((wordsOf (jsTrim "Dr Jane Smith").toList).length ≥ 1 ∧
      (wordsOf (jsTrim "Dr Jane Smith").toList).length ≤ 3) ∧
    (∀ w ∈ wordsOf (jsTrim "Dr Jane Smith").toList, isNameWord w = true) ∧
    ((wordsOf (jsTrim "Dr Jane Smith").toList).length = 3 →
      ∃ w0, (wordsOf (jsTrim "Dr Jane Smith").toList).head? = some w0 ∧
        lowerStr w0 = "dr") :=
  claim8_looksLikeProviderName_shape.1 "Dr Jane Smith" (by decide)

/-! ## Claim C10 -/

/-- C10: when the symptom triage is already complete (index at or beyond the
question-list length), answering is a no-op; and the question index never
exceeds the question-list length. -/
theorem claim10_answer_past_end_noop :
    (∀ (st : ChatState) (opt : String),
      symptomQuestions.length ≤ st.symptomStep →
      answerSymptomQuestion st opt = st) ∧
    (∀ (st : ChatState) (opt : String),
      st.symptomStep ≤ symptomQuestions.length →
      (answerSymptomQuestion st opt).symptomStep ≤ symptomQuestions.length) := by
  constructor
  · intro st opt h
    unfold answerSymptomQuestion
    rw [List.getElem?_eq_none h]
  · intro st opt h
    rcases hq : symptomQuestions[st.symptomStep]? with _ | q
    · simp [answerSymptomQuestion, hq, h]
    · have hlt : st.symptomStep < symptomQuestions.length := by
        by_contra hge
        push_neg at hge
        rw [List.getElem?_eq_none hge] at hq
        exact absurd hq (by simp)
      simp only [answerSymptomQuestion, hq]
      split
      · simp
        omega
      · simp
        omega

/-- Completed-triage state used as the C10 witness input. -/
def stDone : ChatState :=
  { initChatState with
    symptomStep := 3
    symptomResponses :=
      [("duration", "1-3 days"), ("fever", "Mild fever"), ("breathing", "No")] }

/-- Witness for C10: answering after completion leaves the state unchanged. -/
theorem claim10_witness :
    answerSymptomQuestion stDone "No" = stDone ∧
    (answerSymptomQuestion stDone "No").symptomStep ≤ symptomQuestions.length :=
  ⟨claim10_answer_past_end_noop.1 stDone "No" (by decide),
   claim10_answer_past_end_noop.2 stDone "No" (by decide)⟩

/-! ## Claims C4 and C5: booking lifecycle fixtures -/

/-- Initial page.tsx state (all useState initial values). -/
def initPgState : Pg.PgState :=
  { messages := []
    input := ""
    loading := false
    intent := none
    careOptions := none
    selectedCareType := none
    mode := .in_person
    availability := none
    selectedSlot := none
    selectedAppointmentPreview := none
    holdId := none
    holdExpiresAt := none
    patientFirstName := "Alex"
    patientLastName := "Rivera"
    patientDob := "1990-01-15"
    patientPhone := "3125550101"
    patientEmail := "alex@example.com"
    patientNotes := ""
    bookingStatus := none
    providerMatches := none
    providerDiscoveryMode := .idle
    insuranceFlowActive := false
    insuranceFilter := ""
    selectedInsurance := none
    symptomFlowActive := false
    symptomStep := 0
    symptomResponses := []
    geoStatus := .idle
    userLocation := none }

/-- A concrete held slot. -/
def slotX : Pg.AvailabilitySlot :=
  { provider_id := "prov_1"
    provider_name := "Dr. Lee"
    location_id := "loc_1"
    location_name := "Downtown Clinic"
    start := "2026-03-05T10:00:00Z"
    endTime := "2026-03-05T10:30:00Z"
    mode := .virtual }

/-- A concrete successful booking response echoing slotX. -/
def respX : Pg.BookAppointmentResponse :=
  { appointment_id := "appt_1"
    provider_name := "Dr. Lee"
    location_name := "Downtown Clinic"
    start := "2026-03-05T10:00:00Z"
    endTime := "2026-03-05T10:30:00Z"
    mode := .virtual
    status := "confirmed" }

/-- State holding slotX under hold hold_1. -/
def stHold : Pg.PgState :=
  { initPgState with holdId := some "hold_1", selectedSlot := some slotX }

/-- Environment whose booking collaborator succeeds with respX; the date
formatter is the identity so status lines carry the raw ISO timestamp. -/
def envBook : Pg.PgCollab :=
  { searchIntent := fun _ => .error "unused"
    careOptions := fun _ _ => .error "unused"
    providers := .error "unused"
    availability := .error "unused"
    holds := .error "unused"
    appointments := .ok respX
    fmtDateTime := fun s => s }

/-- Environment whose booking collaborator fails. -/
def envBookFail : Pg.PgCollab :=
  { envBook with appointments := .error "hold expired" }

/-! ## Claim C4 -/

/-- C4 counterexample: after a successful booking the hold id is still
present (the claim says the hold is cleared), and the confirmation
transcript entry does not contain the appointment time. -/
theorem claim4_counterexample :
    (Pg.bookAppointment envBook stHold).1.holdId = some "hold_1" ∧
    ((Pg.bookAppointment envBook stHold).1.messages.getLast?).map
        (fun m => includes m.text "2026-03-05") = some false := by
  decide

/-- C4 (amended): with a non-null hold and selected slot, on collaborator
success the confirmation transcript entry (provider, mode, confirmation id)
is emitted and the booking status line reports provider and time, the hold
id and selected slot being left unchanged rather than cleared; on failure
the status becomes "Booking failed: reason" and the hold and selected slot
are left intact so the user may retry. -/
theorem claim4_booking_outcomes (env : Pg.PgCollab) (st : Pg.PgState)
    (h : String) (slot : Pg.AvailabilitySlot)
    (hh : st.holdId = some h) (hs : st.selectedSlot = some slot) :
    (∀ resp, env.appointments = .ok resp →
      Pg.bookAppointment env st =
        ({ st with
            loading := false
            bookingStatus := some
              ("Booked with " ++ resp.provider_name ++ " on " ++
                env.fmtDateTime resp.start ++ ".")
            messages := st.messages ++
              [{ role := .assistant
                 text := "Booked " ++ resp.status ++ " with " ++ resp.provider_name ++
                   " (" ++ modeStr resp.mode ++ "). Confirmation: " ++
                   resp.appointment_id ++ "." }] },
         [.appointments h]) ∧
      (Pg.bookAppointment env st).1.holdId = some h ∧
      (Pg.bookAppointment env st).1.selectedSlot = some slot) ∧
    (∀ e, env.appointments = .error e →
      Pg.bookAppointment env st =
        ({ st with
            loading := false
            bookingStatus := some ("Booking failed: " ++ e) },
         [.appointments h]) ∧
      (Pg.bookAppointment env st).1.holdId = some h ∧
      (Pg.bookAppointment env st).1.selectedSlot = some slot) := by
  constructor
  · intro resp hresp
    unfold Pg.bookAppointment
    rw [hh, hs, hresp]
    refine ⟨rfl, ?_, ?_⟩ <;> simp [hh, hs]
  · intro e herr
    unfold Pg.bookAppointment
    rw [hh, hs, herr]
    refine ⟨rfl, ?_, ?_⟩ <;> simp [hh, hs]

/-- Witness for C4 at the concrete success environment. -/
theorem claim4_witness :
    Pg.bookAppointment envBook stHold =
      ({ stHold with
          loading := false
          bookingStatus := some
            ("Booked with " ++ respX.provider_name ++ " on " ++
              envBook.fmtDateTime respX.start ++ ".")
          messages := stHold.messages ++
            [{ role := .assistant
               text := "Booked " ++ respX.status ++ " with " ++ respX.provider_name ++
                 " (" ++ modeStr respX.mode ++ "). Confirmation: " ++
                 respX.appointment_id ++ "." }] },
       [.appointments "hold_1"]) ∧
    (Pg.bookAppointment envBook stHold).1.holdId = some "hold_1" ∧
    (Pg.bookAppointment envBook stHold).1.selectedSlot = some slotX :=
  (claim4_booking_outcomes envBook stHold "hold_1" slotX rfl rfl).1 respX rfl

/-! ## Claim C5 -/

/-- C5: with no active hold or no selected slot, invoking the booking
operation is a silent no-op: no collaborator call, no message, and the whole
session state unchanged. -/
theorem claim5_booking_guard_noop (env : Pg.PgCollab) (st : Pg.PgState)
    (h : st.holdId = none ∨ st.selectedSlot = none) :
    Pg.bookAppointment env st = (st, []) := by
  unfold Pg.bookAppointment
  rcases h with h | h
  · rw [h]
  · rw [h]
    cases st.holdId <;> rfl

/-- Witness for C5 at the initial (hold-free) state. -/
theorem claim5_witness :
    Pg.bookAppointment envBookFail initPgState = (initPgState, []) :=
  claim5_booking_guard_noop envBookFail initPgState (Or.inl rfl)

/-! ## Claim C9 -/

/-- A non-empty part_000 turn behaves identically whether or not the prior
flow-local state was first reset: handleSend resets it before anything
else. -/
theorem handleSend_reset_eq (env : Collab) (st : ChatState) (raw : String)
    (h : ¬ (jsTrim raw = "")) :
    P0.handleSend env st (some raw) = P0.handleSend env (P0.resetFlows st) (some raw) := by
  simp only [P0.handleSend, Option.getD_some, if_neg h]
  rfl

/-- C9: resetFlows puts every flow-local field back to its initial value,
and a non-empty user turn is insensitive to all prior flow-local state (two
states agreeing only on transcript, composer input, busy flag and selected
appointment produce identical turn results), so no stale symptom answers or
geolocation status survive into a new turn. -/
theorem claim9_turn_reset :
    (∀ st : ChatState,
      (P0.resetFlows st).insuranceFlowActive = false ∧
      (P0.resetFlows st).insuranceFilter = "" ∧
      (P0.resetFlows st).selectedInsurance = none ∧
      (P0.resetFlows st).symptomFlowActive = false ∧
      (P0.resetFlows st).symptomStep = 0 ∧
      (P0.resetFlows st).symptomResponses = [] ∧
      (P0.resetFlows st).geoStatus = .idle ∧
      (P0.resetFlows st).userLocation = none ∧
      (P0.resetFlows st).providerMatches = none ∧
      (P0.resetFlows st).providerDiscoveryMode = .idle ∧
      (P0.resetFlows st).providerDiscoveryContext = none ∧
      (P0.resetFlows st).searchSuggestions = none ∧
      (P0.resetFlows st).lastSuggestionQuery = "") ∧
    (∀ (env : Collab) (st st' : ChatState) (raw : String),
      ¬ (jsTrim raw = "") →
      st.messages = st'.messages → st.input = st'.input →
      st.loading = st'.loading → st.selectedAppointment = st'.selectedAppointment →
      P0.handleSend env st (some raw) = P0.handleSend env st' (some raw)) := by
  constructor
  · intro st
    refine ⟨rfl, rfl, rfl, rfl, rfl, rfl, rfl, rfl, rfl, rfl, rfl, rfl, rfl⟩
  · intro env st st' raw hne hm hi hl ha
    have hreset : P0.resetFlows st = P0.resetFlows st' := by
      cases st
      cases st'
      simp only [P0.resetFlows] at *
      simp_all
    rw [handleSend_reset_eq env st raw hne, handleSend_reset_eq env st' raw hne, hreset]

/-- A state carrying stale flow-local residue from a completed
SymptomTriage. -/
def stStale : ChatState :=
  { initChatState with
    symptomStep := 3
    symptomResponses :=
      [("duration", "1-3 days"), ("fever", "Mild fever"), ("breathing", "No")]
    geoStatus := .granted
    userLocation := some "Chicago, IL"
    providerMatches := some []
    providerDiscoveryMode := .finding
    insuranceFlowActive := true
    insuranceFilter := "ae"
    selectedInsurance := some "Aetna"
    lastSuggestionQuery := "Dr" }

/-- Witness for C9: the stale state and the pristine state produce the same
turn for a fresh unrelated message. -/
theorem claim9_witness :
    P0.handleSend envDown stStale (some "hello there") =
    P0.handleSend envDown initChatState (some "hello there") :=
  claim9_turn_reset.2 envDown stStale initChatState "hello there"
    (by decide) rfl rfl rfl rfl

/-! ## Coordinator call-shape helper lemmas -/

/-- The provider-name lookup always performs exactly its own search call. -/
theorem fetchProvidersByName_calls (env : Collab) (s : ChatState) (q : String) :
    (fetchProvidersByName env s q).2.2 = [.providerSearch q] := by
  unfold fetchProvidersByName
  cases env.providerSearch q with
  | ok resp =>
    dsimp only
    split <;> first | rfl | (split <;> rfl)
  | error e => rfl

/-- The by-specialty discovery always performs exactly its providers call. -/
theorem fetchProvidersByType_calls (env : Collab) (s : ChatState)
    (pt : ProviderType) (q : Option String) (loc : String)
    (intent : Option DiscoveryIntent) :
    (fetchProvidersByType env s pt q loc intent).2 = [.providers pt] := by
  unfold fetchProvidersByType
  cases env.providersByType pt <;> rfl

/-- The by-specialty discovery never touches the symptom flow flag. -/
theorem fetchProvidersByType_symptomFlow (env : Collab) (s : ChatState)
    (pt : ProviderType) (q : Option String) (loc : String)
    (intent : Option DiscoveryIntent) :
    (fetchProvidersByType env s pt q loc intent).1.symptomFlowActive =
      s.symptomFlowActive := by
  unfold fetchProvidersByType
  cases env.providersByType pt <;> rfl

/-- The by-specialty discovery never touches the insurance flow flag. -/
theorem fetchProvidersByType_insuranceFlow (env : Collab) (s : ChatState)
    (pt : ProviderType) (q : Option String) (loc : String)
    (intent : Option DiscoveryIntent) :
    (fetchProvidersByType env s pt q loc intent).1.insuranceFlowActive =
      s.insuranceFlowActive := by
  unfold fetchProvidersByType
  cases env.providersByType pt <;> rfl

/-! ## Claim C2 -/

/-- C2: the part_006/part_000 classifier chain is evaluated in the fixed
order insurance query, provider-name shape, specialty/next-available search,
symptom query, generic intent, taking the first match; in particular an
utterance matching both the insurance and the symptom classifier is
dispatched to InsuranceSelection and not to SymptomTriage. -/
theorem claim2_classifier_precedence (env : Collab) (st : ChatState) (text : String)
    (h1 : jsTrim text = text) (h2 : text ≠ "") :
    (isInsuranceQuery text = true → isSymptomQuery text = true →
      (P6.handleSend env st (some text)).1.insuranceFlowActive = true ∧
      (P6.handleSend env st (some text)).1.symptomFlowActive = false ∧
      (P6.handleSend env st (some text)).2 = []) ∧
    (isInsuranceQuery text = true →
      (P6.handleSend env st (some text)).1.insuranceFlowActive = true ∧
      (P6.handleSend env st (some text)).2 = []) ∧
    (isInsuranceQuery text = false → looksLikeProviderName text = true →
      (P6.handleSend env st (some text)).2.head? = some (.providerSearch text)) ∧
    (isInsuranceQuery text = false → looksLikeProviderName text = false →
      ((detectProviderSearch text).isSome = true ∨ isNextAvailableRequest text = true) →
      (P6.handleSend env st (some text)).2 =
        [.providers (match detectProviderSearch text with
                     | some pi => pi.providerType
                     | none => .primary_care)] ∧
      (P6.handleSend env st (some text)).1.symptomFlowActive = false ∧
      (P6.handleSend env st (some text)).1.insuranceFlowActive = false) ∧
    (isInsuranceQuery text = false → looksLikeProviderName text = false →
      detectProviderSearch text = none → isNextAvailableRequest text = false →
      isSymptomQuery text = true →
      (P6.handleSend env st (some text)).1.symptomFlowActive = true ∧
      (P6.handleSend env st (some text)).2 = [] ∧
      (P6.handleSend env st (some text)).1.insuranceFlowActive = false) ∧
    (isInsuranceQuery text = false → looksLikeProviderName text = false →
      detectProviderSearch text = none → isNextAvailableRequest text = false →
      isSymptomQuery text = false →
      (P6.handleSend env st (some text)).2 = [.searchIntent text]) := by
  refine ⟨?_, ?_, ?_, ?_, ?_, ?_⟩
  · intro hi hs
    simp [P6.handleSend, P6.resetFlows, Option.getD_some, h1, if_neg h2, hi]
  · intro hi
    simp [P6.handleSend, P6.resetFlows, Option.getD_some, h1, if_neg h2, hi]
  · intro hi hn
    simp only [P6.handleSend, Option.getD_some, h1, if_neg h2, hi, hn,
      Bool.false_eq_true, if_false, if_true]
    split
    · next st4 calls heq =>
      have h0 := congrArg (fun p : ChatState × Bool × List CollabCall => p.2.2) heq
      simp only [fetchProvidersByName_calls] at h0
      simp [← h0]
    · next st4 calls heq =>
      have h0 := congrArg (fun p : ChatState × Bool × List CollabCall => p.2.2) heq
      simp only [fetchProvidersByName_calls] at h0
      simp [← h0]
  · intro hi hn hsp
    rcases hd : detectProviderSearch text with _ | pi
    · have hna : isNextAvailableRequest text = true := by
        rcases hsp with h | h
        · rw [hd] at h; simp at h
        · exact h
      simp [P6.handleSend, P6.handleSendRest, P6.resetFlows, Option.getD_some, h1,
        if_neg h2, hi, hn, hd, hna, fetchProvidersByType_calls,
        fetchProvidersByType_symptomFlow, fetchProvidersByType_insuranceFlow]
    · simp [P6.handleSend, P6.handleSendRest, P6.resetFlows, Option.getD_some, h1,
        if_neg h2, hi, hn, hd, fetchProvidersByType_calls,
        fetchProvidersByType_symptomFlow, fetchProvidersByType_insuranceFlow]
  · intro hi hn hd hna hs
    simp [P6.handleSend, P6.handleSendRest, P6.resetFlows, Option.getD_some, h1,
      if_neg h2, hi, hn, hd, hna, hs]
  · intro hi hn hd hna hs
    rcases hq : env.searchIntent text with e | r
    · simp [P6.handleSend, P6.handleSendRest, P6.resetFlows, Option.getD_some, h1,
        if_neg h2, hi, hn, hd, hna, hs, hq]
    · cases hesc : r.escalate <;>
        simp [P6.handleSend, P6.handleSendRest, P6.resetFlows, Option.getD_some, h1,
          if_neg h2, hi, hn, hd, hna, hs, hq, hesc]

/-- Witness for C2: an utterance matching both the insurance and the symptom
classifier enters InsuranceSelection, not SymptomTriage, with no
collaborator call. -/
theorem claim2_witness :
    (P6.handleSend envDown initChatState
        (some "Which doctors accept my insurance? I have a sore throat")).1.insuranceFlowActive = true ∧
    (P6.handleSend envDown initChatState
        (some "Which doctors accept my insurance? I have a sore throat")).1.symptomFlowActive = false ∧
    (P6.handleSend envDown initChatState
        (some "Which doctors accept my insurance? I have a sore throat")).2 = [] :=
  (claim2_classifier_precedence envDown initChatState
      "Which doctors accept my insurance? I have a sore throat"
      (by decide) (by decide)).1 (by decide) (by decide)

/-! ## Claim C3 -/

/-- Environment whose fuzzy name search succeeds but returns no matches and
no suggestions. -/
def envEmptySearch : Collab :=
  { envDown with providerSearch := fun _ => .ok { providers := [], suggestions := [] } }

/-- C3 counterexample: "sore throat" is provider-name-shaped and also a
symptom query; when the name lookup explicitly yields nothing the controller
terminates the turn after the lookup (one provider-search call, symptom flow
not entered), instead of falling through to the symptom rule as the claim
states. -/
theorem claim3_counterexample :
    (P6.handleSend envEmptySearch initChatState (some "sore throat")).1.symptomFlowActive = false ∧
    (P6.handleSend envEmptySearch initChatState (some "sore throat")).2 =
      [.providerSearch "sore throat"] ∧
    isSymptomQuery "sore throat" = true ∧
    looksLikeProviderName "sore throat" = true := by
  decide

/-- C3 (amended): on a provider-name-shaped utterance the controller
attempts the name lookup; if it succeeds with at least one match or
suggestion the turn enters ProviderDiscovery and stops; if it succeeds with
empty matches and suggestions the controller emits the not-found message and
terminates the turn (no fall-through); only when the lookup call fails does
the controller fall through to the next classification rule. -/
theorem claim3_name_lookup_behavior (env : Collab) (st : ChatState) (text : String)
    (h1 : jsTrim text = text) (h2 : text ≠ "")
    (hi : isInsuranceQuery text = false) (hn : looksLikeProviderName text = true) :
    (∀ resp, env.providerSearch text = .ok resp →
      (resp.providers ≠ [] ∨ resp.suggestions ≠ []) →
      (P6.handleSend env st (some text)).1.providerMatches =
        some (if resp.providers ≠ [] then resp.providers else resp.suggestions) ∧
      (P6.handleSend env st (some text)).2 = [.providerSearch text]) ∧
    (∀ resp, env.providerSearch text = .ok resp →
      resp.providers = [] → resp.suggestions = [] →
      (P6.handleSend env st (some text)).2 = [.providerSearch text] ∧
      (P6.handleSend env st (some text)).1.messages =
        st.messages ++
          [{ role := .user, text := text },
           { role := .assistant
             text := "I couldn\x27t find any providers matching \"" ++ text ++
               "\". Try another name or add more details." }] ∧
      (P6.handleSend env st (some text)).1.symptomFlowActive = false ∧
      (P6.handleSend env st (some text)).1.providerMatches = none) ∧
    (∀ e, env.providerSearch text = .error e →
      detectProviderSearch text = none → isNextAvailableRequest text = false →
      isSymptomQuery text = true →
      (P6.handleSend env st (some text)).1.symptomFlowActive = true ∧
      (P6.handleSend env st (some text)).2 = [.providerSearch text]) := by
  refine ⟨?_, ?_, ?_⟩
  · intro resp hq hne
    by_cases hp : resp.providers = []
    · have hsug : resp.suggestions ≠ [] := by
        rcases hne with h | h
        · exact absurd hp h
        · exact h
      simp [P6.handleSend, fetchProvidersByName, Option.getD_some, h1, if_neg h2,
        hi, hn, hq, hp, hsug]
    · simp [P6.handleSend, fetchProvidersByName, Option.getD_some, h1, if_neg h2,
        hi, hn, hq, hp]
  · intro resp hq hp hsug
    simp [P6.handleSend, P6.resetFlows, fetchProvidersByName, Option.getD_some, h1,
      if_neg h2, hi, hn, hq, hp, hsug]
  · intro e hq hd hna hs
    simp [P6.handleSend, P6.handleSendRest, P6.resetFlows, fetchProvidersByName,
      Option.getD_some, h1, if_neg h2, hi, hn, hq, hd, hna, hs]

/-- Witness for C3 at the concrete empty-result lookup for "sore throat". -/
theorem claim3_witness :
    (P6.handleSend envEmptySearch initChatState (some "sore throat")).2 =
      [.providerSearch "sore throat"] ∧
    (P6.handleSend envEmptySearch initChatState (some "sore throat")).1.messages =
      initChatState.messages ++
        [{ role := .user, text := "sore throat" },
         { role := .assistant
           text := "I couldn\x27t find any providers matching \"sore throat\". Try another name or add more details." }] ∧
    (P6.handleSend envEmptySearch initChatState (some "sore throat")).1.symptomFlowActive = false ∧
    (P6.handleSend envEmptySearch initChatState (some "sore throat")).1.providerMatches = none :=
  (claim3_name_lookup_behavior envEmptySearch initChatState "sore throat"
      (by decide) (by decide) (by decide) (by decide)).2.1
    { providers := [], suggestions := [] } rfl rfl rfl

/-! ## Claim C1 -/

/-- C1: when the search-intent collaborator reports the escalate flag on a
turn that reaches it, both controller variants emit exactly one assistant
message - the provided safety message, or the default emergency-care text
when it is absent - make no further collaborator call (in particular no
care-options and no provider call) and perform no flow transition in that
turn. -/
theorem claim1_escalation_short_circuit :
    (∀ (env : Collab) (st : ChatState) (text : String) (r : SearchIntentResponse),
      jsTrim text = text → text ≠ "" →
      isInsuranceQuery text = false → looksLikeProviderName text = false →
      detectProviderSearch text = none → isNextAvailableRequest text = false →
      isSymptomQuery text = false →
      env.searchIntent text = .ok r → r.escalate = true →
      (P6.handleSend env st (some text)).1.messages =
        st.messages ++
          [{ role := .user, text := text },
           { role := .assistant
             text := r.safety_message.getD
               "For safety, please call 911 or visit the nearest emergency room." }] ∧
      (P6.handleSend env st (some text)).2 = [.searchIntent text] ∧
      (P6.handleSend env st (some text)).1.insuranceFlowActive = false ∧
      (P6.handleSend env st (some text)).1.symptomFlowActive = false ∧
      (P6.handleSend env st (some text)).1.providerDiscoveryMode = .idle ∧
      (P6.handleSend env st (some text)).1.providerMatches = none ∧
      (P6.handleSend env st (some text)).1.providerDiscoveryContext = none) ∧
    (∀ (env : Pg.PgCollab) (st : Pg.PgState) (text : String) (r : SearchIntentResponse),
      jsTrim text = text → text ≠ "" →
      Pg.pgIsInsuranceQuery text = false → Pg.isPrimaryCareQuery text = false →
      isSymptomQuery text = false →
      env.searchIntent text = .ok r → r.escalate = true →
      (Pg.handleSend env st (some text)).1.messages =
        st.messages ++
          [{ role := .user, text := text },
           { role := .assistant
             text := r.safety_message.getD "This may require immediate care." }] ∧
      (Pg.handleSend env st (some text)).2 = [.searchIntent text] ∧
      (Pg.handleSend env st (some text)).1.insuranceFlowActive = false ∧
      (Pg.handleSend env st (some text)).1.symptomFlowActive = false ∧
      (Pg.handleSend env st (some text)).1.careOptions = none ∧
      (Pg.handleSend env st (some text)).1.selectedCareType = none ∧
      (Pg.handleSend env st (some text)).1.providerDiscoveryMode = .idle ∧
      (Pg.handleSend env st (some text)).1.providerMatches = none) := by
  constructor
  · intro env st text r h1 h2 hi hn hd hna hs hok hesc
    have hne : ¬ (jsTrim text = "") := by rw [h1]; exact h2
    simp [P6.handleSend, P6.handleSendRest, P6.resetFlows, Option.getD_some, h1,
      if_neg hne, hi, hn, hd, hna, hs, hok, hesc, h2]
  · intro env st text r h1 h2 hi hp hs hok hesc
    have hne : ¬ (jsTrim text = "") := by rw [h1]; exact h2
    simp [Pg.handleSend, Pg.resetFlows, Option.getD_some, h1,
      if_neg hne, hi, hp, hs, hok, hesc, h2]

/-- An escalating search-intent response without a safety message. -/
def rEscalate : SearchIntentResponse :=
  { escalate := true, not_medical_advice := "not medical advice" }

/-- Environment whose intent collaborator escalates every message. -/
def envEscalate : Collab :=
  { envDown with searchIntent := fun _ => .ok rEscalate }

/-- Page-variant environment whose intent collaborator escalates. -/
def envEscalatePg : Pg.PgCollab :=
  { searchIntent := fun _ => .ok rEscalate
    careOptions := fun _ _ => .error "unused"
    providers := .error "unused"
    availability := .error "unused"
    holds := .error "unused"
    appointments := .error "unused"
    fmtDateTime := fun s => s }

/-- Witness for C1 at a concrete escalating turn in both variants. -/
theorem claim1_witness :
    ((P6.handleSend envEscalate initChatState (some "i feel really awful right now")).1.messages =
        initChatState.messages ++
          [{ role := .user, text := "i feel really awful right now" },
           { role := .assistant
             text := rEscalate.safety_message.getD
               "For safety, please call 911 or visit the nearest emergency room." }] ∧
      (P6.handleSend envEscalate initChatState (some "i feel really awful right now")).2 =
        [.searchIntent "i feel really awful right now"] ∧
      (P6.handleSend envEscalate initChatState (some "i feel really awful right now")).1.insuranceFlowActive = false ∧
      (P6.handleSend envEscalate initChatState (some "i feel really awful right now")).1.symptomFlowActive = false ∧
      (P6.handleSend envEscalate initChatState (some "i feel really awful right now")).1.providerDiscoveryMode = .idle ∧
      (P6.handleSend envEscalate initChatState (some "i feel really awful right now")).1.providerMatches = none ∧
      (P6.handleSend envEscalate initChatState (some "i feel really awful right now")).1.providerDiscoveryContext = none) ∧
    ((Pg.handleSend envEscalatePg initPgState (some "i feel really awful right now")).1.messages =
        initPgState.messages ++
          [{ role := .user, text := "i feel really awful right now" },
           { role := .assistant
             text := rEscalate.safety_message.getD "This may require immediate care." }] ∧
      (Pg.handleSend envEscalatePg initPgState (some "i feel really awful right now")).2 =
        [.searchIntent "i feel really awful right now"] ∧
      (Pg.handleSend envEscalatePg initPgState (some "i feel really awful right now")).1.insuranceFlowActive = false ∧
      (Pg.handleSend envEscalatePg initPgState (some "i feel really awful right now")).1.symptomFlowActive = false ∧
      (Pg.handleSend envEscalatePg initPgState (some "i feel really awful right now")).1.careOptions = none ∧
      (Pg.handleSend envEscalatePg initPgState (some "i feel really awful right now")).1.selectedCareType = none ∧
      (Pg.handleSend envEscalatePg initPgState (some "i feel really awful right now")).1.providerDiscoveryMode = .idle ∧
      (Pg.handleSend envEscalatePg initPgState (some "i feel really awful right now")).1.providerMatches = none) :=
  ⟨claim1_escalation_short_circuit.1 envEscalate initChatState
      "i feel really awful right now" rEscalate
      (by decide) (by decide) (by decide) (by decide) (by decide) (by decide) (by decide)
      rfl rfl,
   claim1_escalation_short_circuit.2 envEscalatePg initPgState
      "i feel really awful right now" rEscalate
      (by decide) (by decide) (by decide) (by decide) (by decide)
      rfl rfl⟩

end PatSched
